import Mathlib

/-!
Shallow embedding of the docQuest document-analysis pipeline
(src/utils/pdf_processing.py, src/utils/llm_interaction.py, and the older
iteration src/pdf_processing.py), together with theorems settling the
frozen claims about it.

Modelling conventions:
* Machine floats of the Python source (page geometry, areas, thresholds)
  are embedded as rationals; the claims only compare such quantities
  against zero and against each other, where rational arithmetic is a
  faithful model.
* A PDF page object is embedded as a record of the observations the code
  extracts from it (`get_images`, `get_text("blocks")`, `get_drawings`,
  `rect`, `get_pixmap` bytes, `get_text("text")`).  The accessors are
  total, so the defensive `try/except` wrapper inside
  `detect_ocr_images_and_vector_graphics_in_pdf` has no live error path
  in the model.
* Calls to the language-model backend are oracles: functions returning
  `Option` results, where `none` models the call raising an exception
  that escapes into the enclosing `except` handler, and `some s` models
  it returning the string `s` (including the sentinel strings those
  functions themselves substitute for caught network errors).
* Python exceptions are modelled only where a handler in the embedded
  code can observe them (per-page handler in `process_page_batch`,
  request handlers in `llm_interaction`).
-/

/-- One entry of a page's `image_analysis` list:
`{"page_number": ..., "explanation": ...}`. -/
structure ImageAnalysisEntry where
  page_number : Nat
  explanation : String
deriving DecidableEq

/-- One page record produced by `process_page_batch`
(src/utils/pdf_processing.py lines 77-91). -/
structure PageData where
  page_number : Nat
  full_text : String
  text_summary : String
  image_analysis : List ImageAnalysisEntry
deriving DecidableEq

/-- The `document_data` record built by `process_pdf_pages`
(src/utils/pdf_processing.py line 109). -/
structure DocumentData where
  document_name : String
  pages : List PageData
deriving DecidableEq

/-- The `{"role": ..., "content": ...}` system-prompt message built by
`process_pdf_pages` (src/utils/pdf_processing.py lines 135-145). -/
structure SystemPrompt where
  role : String
  content : String
deriving DecidableEq

/-- The pydantic `SystemPromptOutput` model
(src/utils/llm_interaction.py lines 58-66): eight string fields. -/
structure SystemPromptOutput where
  document : String
  domain : String
  subject : String
  expertise : String
  qualification : String
  style : String
  tone : String
  voice : String
deriving DecidableEq

/-- The observations the classifier code extracts from one loaded PDF
page: `page.get_images(full=True)` (only its length matters),
`page.get_text("blocks")` (only the four block coordinates matter),
`bool(page.get_drawings())`, `page.rect.width`/`page.rect.height`,
the base64-encoded pixmap bytes, and `page.get_text("text")`. -/
structure PageObs where
  images : Nat
  blocks : List (ℚ × ℚ × ℚ × ℚ)
  drawings : Bool
  width : ℚ
  height : ℚ
  pix_base64 : String
  text : String
deriving DecidableEq

/-- Python's `str.strip()`: drop whitespace from both ends.  (Defined
over the character list so that it evaluates by kernel reduction.) -/
def pyStrip (s : String) : String :=
  String.mk (((s.data.dropWhile Char.isWhitespace).reverse.dropWhile Char.isWhitespace).reverse)

/-- `' '.join(text.split())` (src/utils/pdf_processing.py line 27):
split on whitespace runs and rejoin with single spaces. -/
def remove_stopwords_and_blanks (text : String) : String :=
  String.intercalate " " ((text.split Char.isWhitespace).filter (fun w => w ≠ ""))

/-- Total text-block area of a page:
`sum((block[2]-block[0]) * (block[3]-block[1]) for block in text_blocks)`
(src/utils/pdf_processing.py line 38). -/
def text_area (page : PageObs) : ℚ :=
  (page.blocks.map (fun b => (b.2.2.1 - b.1) * (b.2.2.2 - b.2.1))).sum

/-- `page.rect.width * page.rect.height`. -/
def page_area (page : PageObs) : ℚ :=
  page.width * page.height

/-- The page classifier `detect_ocr_images_and_vector_graphics_in_pdf`
(src/utils/pdf_processing.py lines 29-52).  Returns the base64 page
image when the page is flagged for image-level interpretation, `none`
otherwise.  The division computing `text_coverage` is guarded:
`text_area / page_area if page_area > 0 else 0`. -/
def text_coverage (page : PageObs) : ℚ :=
  if page_area page > 0 then text_area page / page_area page else 0

def detect_ocr_images_and_vector_graphics_in_pdf
    (page : PageObs) (ocr_text_threshold : ℚ) : Option String :=
  if (page.images ≠ 0 ∨ page.drawings = true) ∧ text_coverage page < ocr_text_threshold then
    some page.pix_base64
  else
    none

/-- Division instrumented to surface Python's `ZeroDivisionError`:
`a / b` raises exactly when `b == 0`. -/
def checkedDiv (a b : ℚ) : Except String ℚ :=
  if b = 0 then Except.error "ZeroDivisionError" else Except.ok (a / b)

/-- The classifier of src/utils/pdf_processing.py with its division
instrumented by `checkedDiv`, to express reachability of a division
fault. -/
def detect_checked (page : PageObs) (ocr_text_threshold : ℚ) :
    Except String (Option String) :=
  (if page_area page > 0 then checkedDiv (text_area page) (page_area page)
   else Except.ok 0).bind fun cov =>
    if (page.images ≠ 0 ∨ page.drawings = true) ∧ cov < ocr_text_threshold then
      Except.ok (some page.pix_base64)
    else
      Except.ok none

namespace OldPipeline

/-- The older classifier iteration
`detect_ocr_images_and_vector_graphics_in_pdf` of src/pdf_processing.py
(lines 11-30), with its (unguarded) division instrumented by
`checkedDiv`.  It divides `text_area / page_area` whenever
`(images or vector_graphics_detected) and text.strip()` holds,
with no `page_area > 0` guard. -/
def detect_ocr_images_and_vector_graphics_in_pdf
    (page : PageObs) (page_number : Nat) (ocr_text_threshold : ℚ) :
    Except String (Option (Nat × String)) :=
  if (page.images ≠ 0 ∨ page.drawings = true) ∧ pyStrip page.text ≠ "" then
    (checkedDiv (text_area page) (page_area page)).bind fun cov =>
      if cov < ocr_text_threshold then
        Except.ok (some (page_number + 1, page.pix_base64))
      else
        Except.ok none
  else
    Except.ok none

end OldPipeline

/-- A page on which the unguarded older classifier divides zero by zero:
degenerate 0-by-0 rectangle, one embedded image, non-blank text. -/
def zeroAreaPage : PageObs :=
  { images := 1
    blocks := []
    drawings := false
    width := 0
    height := 0
    pix_base64 := "img"
    text := "x" }

/-- A purely graphical-free page: positive area, zero text area, no
embedded images, no vector graphics. -/
def blankPage : PageObs :=
  { images := 0
    blocks := []
    drawings := false
    width := 100
    height := 100
    pix_base64 := "b64"
    text := "t" }

/-- Like `blankPage` but with one embedded image. -/
def imagePage : PageObs :=
  { blankPage with images := 1 }

/-- Like `blankPage` but with vector graphics present. -/
def vectorPage : PageObs :=
  { blankPage with drawings := true }

/-- A page whose text coverage is exactly 2/5: one 40-by-100 text block
on a 100-by-100 page. -/
def boundaryPage : PageObs :=
  { blankPage with blocks := [(0, 0, 40, 100)] }

/-- A Python runtime value as far as the `isinstance(..., dict)` check
in `process_pdf_pages` (src/utils/pdf_processing.py line 123) can tell:
a pydantic `SystemPromptOutput` model instance, a plain string, or a
dict with string keys and values. -/
inductive PyVal where
  | obj (p : SystemPromptOutput)
  | str (s : String)
  | dict (d : List (String × String))
deriving DecidableEq

/-- `isinstance(v, dict)`: true exactly on the `dict` constructor;
a pydantic model instance and a `str` are not dicts. -/
def isinstance_dict : PyVal → Bool
  | .dict _ => true
  | _ => false

/-- The three outcomes of the backend call plus parse inside
`generate_system_prompt` (src/utils/llm_interaction.py lines 102-122):
a request exception, a pydantic validation failure on the returned
content, or a successfully parsed `SystemPromptOutput`. -/
inductive GenOutcome where
  | netFail
  | parseFail (err : String)
  | parsed (p : SystemPromptOutput)
deriving DecidableEq

/-- `generate_system_prompt` (src/utils/llm_interaction.py lines
68-122): on success returns the validated pydantic model instance; on
validation failure or request failure returns an error string. -/
def generate_system_prompt : GenOutcome → PyVal
  | .netFail => .str "Error: Unable to generate system prompt due to network issues or API error."
  | .parseFail e => .str ("Error: Unable to parse the system prompt output. Validation error: " ++ e)
  | .parsed p => .obj p

/-- `d.get(key, default)` on a string dict. -/
def dict_get (d : List (String × String)) (key dflt : String) : String :=
  match d.find? (fun kv => kv.1 == key) with
  | some kv => kv.2
  | none => dflt

/-- The fallback system prompt of src/utils/pdf_processing.py lines
142-145. -/
def default_system_prompt : SystemPrompt :=
  { role := "system"
    content := "Default system prompt. The system prompt could not be generated." }

/-- The persona-based prompt content of src/utils/pdf_processing.py
lines 137-138. -/
def persona_prompt_content
    (domain subject expertise qualification style tone voice : String) : String :=
  "You are an expert in " ++ domain ++ " " ++ subject ++ " with an expertise in " ++
    expertise ++ " and qualification of " ++ qualification ++
    ". Your response should be " ++ style ++ ", " ++ tone ++ ", and in a " ++
    voice ++ " voice."

/-- The system-prompt construction of `process_pdf_pages`
(src/utils/pdf_processing.py lines 122-145): the
`isinstance(system_prompt_data, dict)` test selects exactly the `dict`
constructor of `PyVal`; in that branch the seven persona fields are
read with `.get(key, default)` (the extracted `document` field is
assigned but never used in the prompt); every other runtime type —
including the pydantic model instance that `generate_system_prompt`
returns on success — takes the fallback branch. -/
def build_system_prompt (system_prompt_data : PyVal) : SystemPrompt :=
  match system_prompt_data with
  | .dict d =>
    { role := "system"
      content := persona_prompt_content
        (dict_get d "domain" "General") (dict_get d "subject" "General topic")
        (dict_get d "expertise" "General knowledge")
        (dict_get d "qualification" "No qualification specified")
        (dict_get d "style" "Informal") (dict_get d "tone" "Neutral")
        (dict_get d "voice" "Neutral") }
  | _ => default_system_prompt

/-- The ambient world a document run observes: the loaded PDF pages and
the language-model backend.  `load_page_text i` models
`pdf_document.load_page(i)` followed by `page.get_text("text").strip()`
(`none` = an exception raised there); `summarize_page` models the
function of src/utils/llm_interaction.py lines 127-165 applied to
(preprocessed text, previous summary, 1-based page number, system
prompt), `none` modelling an exception escaping it (its caught network
failures are `some` sentinel strings); `page_obs i` is the geometry and
imagery the classifier reads off page `i`; `get_image_explanation`
models src/utils/llm_interaction.py lines 18-51 on the base64 page
image, `none` modelling an exception escaping it.  `system_prompt` and
`ocr_text_threshold` are the values `process_page_batch` passes
along. -/
structure PipelineEnv where
  load_page_text : Nat → Option String
  summarize_page : String → String → Nat → SystemPrompt → Option String
  page_obs : Nat → PageObs
  get_image_explanation : String → Option String
  system_prompt : SystemPrompt
  ocr_text_threshold : ℚ

/-- The error-marker record appended by the per-page `except` handler
(src/utils/pdf_processing.py lines 84-91). -/
def error_page (page_number : Nat) : PageData :=
  { page_number := page_number + 1
    full_text := ""
    text_summary := "Error in processing this page"
    image_analysis := [] }

/-- The image-detection-and-explanation stage of the per-page body
(src/utils/pdf_processing.py lines 69-74): the classifier itself
catches its own exceptions (returning `None`), so this stage raises
only when `get_image_explanation` raises on a flagged page. -/
def imageStep (env : PipelineEnv) (page_number : Nat) :
    Option (List ImageAnalysisEntry) :=
  match detect_ocr_images_and_vector_graphics_in_pdf (env.page_obs page_number)
      env.ocr_text_threshold with
  | none => some []
  | some image_data =>
    match env.get_image_explanation image_data with
    | none => none
    | some expl => some [{ page_number := page_number + 1, explanation := expl }]

/-- One iteration of the `for page_number in batch` loop of
`process_page_batch` (src/utils/pdf_processing.py lines 59-91),
returning the record appended to `batch_data` and the value of
`previous_summary` after the iteration.  The three `none` branches are
the three places an exception can reach the per-page `except` handler:
during load/text extraction, during summarization, and — after
`previous_summary = summary` has already executed (line 67) — during
image explanation. -/
def pageStep (env : PipelineEnv) (page_number : Nat) (previous_summary : String) :
    PageData × String :=
  match env.load_page_text page_number with
  | none => (error_page page_number, previous_summary)
  | some text =>
    match env.summarize_page (remove_stopwords_and_blanks text) previous_summary
        (page_number + 1) env.system_prompt with
    | none => (error_page page_number, previous_summary)
    | some summary =>
      match imageStep env page_number with
      | none => (error_page page_number, summary)
      | some ia =>
        ({ page_number := page_number + 1
           full_text := text
           text_summary := summary
           image_analysis := ia }, summary)

/-- The `for page_number in batch` loop of `process_page_batch`,
threading `previous_summary` through the iterations. -/
def runPages (env : PipelineEnv) : List Nat → String → List PageData
  | [], _ => []
  | i :: rest, prev => (pageStep env i prev).1 :: runPages env rest (pageStep env i prev).2

/-- `process_page_batch` (src/utils/pdf_processing.py lines 54-93):
`previous_summary` starts at the empty string for every batch. -/
def process_page_batch (env : PipelineEnv) (batch : List Nat) : List PageData :=
  runPages env batch ""

/-- The value of `previous_summary` entering the `j`-th iteration of a
run of the batch loop that starts at page index `i` with previous
summary `prev`. -/
def chainPrev (env : PipelineEnv) : Nat → String → Nat → String
  | _, prev, 0 => prev
  | i, prev, j + 1 => chainPrev env (i + 1) (pageStep env i prev).2 j

/-- The summary produced for page index `i` when `previous_summary` is
`prev`, if the load and summarize steps both complete (lines 61-66 of
src/utils/pdf_processing.py); `none` if either raises. -/
def summarizeResult (env : PipelineEnv) (i : Nat) (prev : String) : Option String :=
  match env.load_page_text i with
  | none => none
  | some text =>
    env.summarize_page (remove_stopwords_and_blanks text) prev (i + 1) env.system_prompt

/-- `page_batches = [range(i, min(i + batch_size, total_pages)) for i
in range(0, total_pages, batch_size)]` with `batch_size = 5`
(src/utils/pdf_processing.py lines 148-149): `range(0, total, 5)` is
the list of multiples of 5 below `total`, of length `⌈total/5⌉ =
(total+4)/5`, and `range(a, b)` is `List.range' a (b - a)`. -/
def page_batches (total_pages : Nat) : List (List Nat) :=
  ((List.range ((total_pages + 4) / 5)).map (fun k => 5 * k)).map
    (fun i => List.range' i (min (i + 5) total_pages - i))

/-- The list of batch results in batch order (what the submitted
futures compute, src/utils/pdf_processing.py line 153). -/
def batch_results (env : PipelineEnv) (total_pages : Nat) : List (List PageData) :=
  (page_batches total_pages).map (process_page_batch env)

/-- The sort key relation of
`document_data["pages"].sort(key=lambda x: x["page_number"])`
(src/utils/pdf_processing.py line 165). -/
def page_le (a b : PageData) : Prop :=
  a.page_number ≤ b.page_number

instance : DecidableRel page_le := fun a b =>
  inferInstanceAs (Decidable (a.page_number ≤ b.page_number))

instance : IsTotal PageData page_le :=
  ⟨fun a b => Nat.le_total a.page_number b.page_number⟩

instance : IsTrans PageData page_le :=
  ⟨fun _ _ _ => Nat.le_trans⟩

/-- Python's stable in-place sort by page number, modelled by a stable
sorting algorithm over the same key order. -/
def sort_pages (pages : List PageData) : List PageData :=
  List.insertionSort page_le pages

/-- `process_pdf_pages` (src/utils/pdf_processing.py lines 95-167),
after the document has been opened: `system_prompt_data` is the value
`generate_system_prompt` returned for the first-three-pages content
sample, and `completed` is the list of per-batch results in the order
`as_completed` yields them (each submitted batch computes
`process_page_batch env batch`; a completion order is any permutation
of `batch_results env total_pages`).  The collected pages are flattened
by repeated `extend` and sorted by page number; the function returns
the document record together with the system prompt it built. -/
def process_pdf_pages (file_name : String) (system_prompt_data : PyVal)
    (completed : List (List PageData)) : DocumentData × SystemPrompt :=
  ({ document_name := file_name, pages := sort_pages completed.flatten },
   build_system_prompt system_prompt_data)

/-- The record `process_page_batch` produces for global page index `i`,
expressed independently of any batch traversal: page `i` lives in the
batch starting at `5 * (i / 5)`, at offset `i % 5`, whose
previous-summary chain starts empty. -/
def canonPage (env : PipelineEnv) (i : Nat) : PageData :=
  (pageStep env i (chainPrev env (5 * (i / 5)) "" (i % 5))).1

/-- One `{"question": ..., "answer": ...}` entry of the chat history
(src/utils/llm_interaction.py lines 189-192). -/
structure ChatTurn where
  question : String
  answer : String
deriving DecidableEq

/-- The per-page image-analysis rendering of `ask_question`
(src/utils/llm_interaction.py lines 178-180). -/
def render_image_analysis (l : List ImageAnalysisEntry) : String :=
  match l with
  | [] => "No image analysis."
  | _ =>
    String.intercalate "\n"
      (l.map (fun img => "Page " ++ toString img.page_number ++ ": " ++ img.explanation))

/-- The block `ask_question` appends to `combined_content` for one page
(src/utils/llm_interaction.py lines 182-187). -/
def page_block (page : PageData) : String :=
  "Page " ++ toString page.page_number ++ "\n" ++
  "Full Text: " ++ page.full_text ++ "\n" ++
  "Summary: " ++ page.text_summary ++ "\n" ++
  "Image Analysis: " ++ render_image_analysis page.image_analysis ++ "\n\n"

/-- `combined_content` (src/utils/llm_interaction.py lines 170-187):
all documents' pages rendered in mapping order (the document name is
iterated over but never printed). -/
def combined_content (documents : List (String × DocumentData)) : String :=
  String.join (documents.map (fun doc => String.join (doc.2.pages.map page_block)))

/-- `conversation_history` (src/utils/llm_interaction.py lines
189-192). -/
def conversation_history (chat_history : List ChatTurn) : String :=
  String.join (chat_history.map
    (fun chat => "User: " ++ chat.question ++ "\nAssistant: " ++ chat.answer ++ "\n"))

/-- The user-message payload `prompt_message` that `ask_question`
assembles and posts (src/utils/llm_interaction.py lines 194-213). -/
def prompt_message (documents : List (String × DocumentData)) (question : String)
    (chat_history : List ChatTurn) : String :=
  "\n    You are given the following content:\n\n    ---\n    " ++
  combined_content documents ++
  "\n    ---\n    Previous responses over the current chat session: " ++
  conversation_history chat_history ++
  "\n\n    Answer the following question based **strictly and only** on the factual information provided in the content above. \n" ++
  "    Carefully verify all details from the content and do not generate any information that is not explicitly mentioned in it.\n" ++
  "    If the answer cannot be determined from the content, explicitly state that the information is not available.\n" ++
  "    Ensure the response is clearly formatted for readability.\n    \n" ++
  "    At the end of the response, include references to the document name and page number(s) where the information was found.\n\n" ++
  "    Question: " ++ question ++ "\n    "

/-- The parsed JSON body of a completion response, as far as the
extraction `response.json().get('choices', [{}])[0].get('message',
{}).get('content', default)` looks at it: `choices` is the list under
the `'choices'` key (`none` when the key is absent), and each entry is
the `message.content` string when present. -/
structure ApiResponse where
  status : Nat
  choices : Option (List (Option String))
deriving DecidableEq

/-- Outcome of `requests.post` in `ask_question`: either a
`requests.exceptions.RequestException` (connection error or timeout),
or a response with a status and a parsed JSON body.  The backend is an
oracle mapping the posted payload to an outcome. -/
inductive PostResult where
  | exn
  | response (r : ApiResponse)
deriving DecidableEq

/-- How `ask_question` can fail: the `except` handler re-raising
`Exception(...)` (src/utils/llm_interaction.py line 238), or the
uncaught `IndexError` from `[0]` on an empty `choices` list. -/
inductive AskError where
  | raised (msg : String)
  | indexError
deriving DecidableEq

/-- `response.raise_for_status()` raises `HTTPError` exactly for 4xx
and 5xx status codes. -/
def raise_for_status (status : Nat) : Bool :=
  decide (400 ≤ status ∧ status < 600)

/-- `ask_question` (src/utils/llm_interaction.py lines 168-238): it
posts `prompt_message documents question chat_history` and handles the
outcome.  A request exception is caught and re-raised as
`Exception("Unable to answer the question ...")`; `raise_for_status`
turns a 4xx/5xx response into an `HTTPError` (a `RequestException`)
caught by the same handler; otherwise the answer content is extracted
from the parsed body and stripped. -/
def ask_question (documents : List (String × DocumentData)) (question : String)
    (chat_history : List ChatTurn) (post : String → PostResult) : Except AskError String :=
  match post (prompt_message documents question chat_history) with
  | .exn =>
    .error (.raised "Unable to answer the question due to network issues or API error.")
  | .response r =>
    if raise_for_status r.status then
      .error (.raised "Unable to answer the question due to network issues or API error.")
    else
      match (match r.choices with | none => [none] | some cs => cs) with
      | [] => .error .indexError
      | c :: _ => .ok (pyStrip (c.getD "No answer provided."))

/-- A concrete environment for witnesses: every page has text
`"text<i>"`, summaries chain as `prev ++ "#" ++ pageNumber`, loading
page 3 raises, and no page carries imagery. -/
def wEnv : PipelineEnv :=
  { load_page_text := fun i => if i = 3 then none else some ("text" ++ toString i)
    summarize_page := fun _ prev n _ => some (prev ++ "#" ++ toString n)
    page_obs := fun _ => blankPage
    get_image_explanation := fun _ => some "explained"
    system_prompt := default_system_prompt
    ocr_text_threshold := 2/5 }

/-- A concrete environment in which page 1 is flagged by the classifier
(`zeroAreaPage` has an embedded image and zero coverage) and
`get_image_explanation` raises, so page 1 fails *after* its summary was
assigned to `previous_summary`. -/
def lateFailEnv : PipelineEnv :=
  { load_page_text := fun _ => some "t"
    summarize_page := fun _ prev n _ => some (prev ++ "<" ++ toString n ++ ">")
    page_obs := fun i => if i = 1 then zeroAreaPage else blankPage
    get_image_explanation := fun _ => none
    system_prompt := default_system_prompt
    ocr_text_threshold := 2/5 }

/-- Helper: a page with zero text-block area has zero text coverage,
whether or not the division guard fires. -/
theorem text_coverage_of_zero_text_area (page : PageObs) (hz : text_area page = 0) :
    text_coverage page = 0 := by
  unfold text_coverage
  rw [hz]
  split
  · exact zero_div _
  · rfl

/-- C4: the claim says the classifier returns true whenever the page's
total text-block area is zero, regardless of images or vector graphics.
On the code this is false: the first conjunct of the condition at
src/utils/pdf_processing.py line 46 requires embedded images or vector
graphics; `blankPage` has zero text area, positive page area, and no
imagery, and the classifier returns `none` (falsy). -/
theorem detect_zero_text_area_without_imagery_counterexample :
    page_area blankPage > 0 ∧ text_area blankPage = 0 ∧
      detect_ocr_images_and_vector_graphics_in_pdf blankPage (2/5) = none := by
  refine ⟨by norm_num [page_area, blankPage], by norm_num [text_area, blankPage], ?_⟩
  rfl

/-- C4 (amended): for a page of positive area with zero text-block area
and a positive threshold, the classifier flags the page if and only if
embedded images or vector graphics are present. -/
theorem detect_zero_text_area_iff_imagery (page : PageObs) (thr : ℚ)
    (_h0 : 0 < page_area page) (ht : 0 < thr) (hz : text_area page = 0) :
    detect_ocr_images_and_vector_graphics_in_pdf page thr ≠ none ↔
      (page.images ≠ 0 ∨ page.drawings = true) := by
  unfold detect_ocr_images_and_vector_graphics_in_pdf
  rw [text_coverage_of_zero_text_area page hz]
  constructor
  · intro h
    by_contra hc
    rw [if_neg (fun hand => hc hand.1)] at h
    exact h rfl
  · intro h
    rw [if_pos ⟨h, ht⟩]
    simp

/-- C4 witness: `detect_zero_text_area_iff_imagery` applied to the
concrete page `imagePage` at threshold 2/5. -/
theorem detect_zero_text_area_iff_imagery_witness :
    0 < page_area imagePage ∧ 0 < (2/5 : ℚ) ∧ text_area imagePage = 0 ∧
      (detect_ocr_images_and_vector_graphics_in_pdf imagePage (2/5) ≠ none ↔
        (imagePage.images ≠ 0 ∨ imagePage.drawings = true)) :=
  ⟨by norm_num [page_area, imagePage, blankPage],
   by norm_num,
   by norm_num [text_area, imagePage, blankPage],
   detect_zero_text_area_iff_imagery imagePage (2/5)
     (by norm_num [page_area, imagePage, blankPage]) (by norm_num)
     (by norm_num [text_area, imagePage, blankPage])⟩

/-- C5: the claim's first conjunct says that with `text_area == 0` and
no embedded images the classifier returns false.  On the code this is
false when vector graphics are present: `vectorPage` has zero text
area and no embedded images, yet the classifier flags it. -/
theorem detect_boundary_counterexample :
    text_area vectorPage = 0 ∧ vectorPage.images = 0 ∧
      detect_ocr_images_and_vector_graphics_in_pdf vectorPage (2/5) = some "b64" := by
  refine ⟨by norm_num [text_area, vectorPage, blankPage], rfl, ?_⟩
  have hc : (vectorPage.images ≠ 0 ∨ vectorPage.drawings = true) ∧
      text_coverage vectorPage < 2/5 :=
    ⟨Or.inr rfl, by norm_num [text_coverage, page_area, text_area, vectorPage, blankPage]⟩
  unfold detect_ocr_images_and_vector_graphics_in_pdf
  rw [if_pos hc]
  rfl

/-- C5 (amended) boundary contract of the classifier:
with no embedded images and no vector graphics it returns false
(regardless of text area); with `text_area == 0`, an embedded image
present and a positive threshold it returns true; with text coverage
exactly equal to the threshold it returns false (strict less-than). -/
theorem detect_boundary_contract (page : PageObs) (thr : ℚ) :
    (page.images = 0 → page.drawings = false →
      detect_ocr_images_and_vector_graphics_in_pdf page thr = none)
    ∧ (text_area page = 0 → 0 < thr → page.images ≠ 0 →
      detect_ocr_images_and_vector_graphics_in_pdf page thr = some page.pix_base64)
    ∧ (page_area page > 0 → text_area page / page_area page = thr →
      detect_ocr_images_and_vector_graphics_in_pdf page thr = none) := by
  refine ⟨fun hi hd => ?_, fun hz ht hi => ?_, fun h0 hc => ?_⟩
  · unfold detect_ocr_images_and_vector_graphics_in_pdf
    rw [if_neg]
    rintro ⟨hor, -⟩
    rcases hor with h | h
    · exact h hi
    · rw [hd] at h
      exact Bool.false_ne_true h
  · unfold detect_ocr_images_and_vector_graphics_in_pdf
    rw [text_coverage_of_zero_text_area page hz, if_pos ⟨Or.inl hi, ht⟩]
  · unfold detect_ocr_images_and_vector_graphics_in_pdf
    rw [if_neg]
    rintro ⟨-, hlt⟩
    rw [text_coverage, if_pos h0, hc] at hlt
    exact lt_irrefl thr hlt

/-- C5 witness: `detect_boundary_contract` applied at the concrete
pages `blankPage`, `imagePage` and `boundaryPage` with threshold 2/5,
discharging every hypothesis concretely. -/
theorem detect_boundary_contract_witness :
    (blankPage.images = 0 ∧ blankPage.drawings = false ∧
      detect_ocr_images_and_vector_graphics_in_pdf blankPage (2/5) = none)
    ∧ (text_area imagePage = 0 ∧ 0 < (2/5 : ℚ) ∧ imagePage.images ≠ 0 ∧
      detect_ocr_images_and_vector_graphics_in_pdf imagePage (2/5) = some "b64")
    ∧ (page_area boundaryPage > 0 ∧
        text_area boundaryPage / page_area boundaryPage = 2/5 ∧
      detect_ocr_images_and_vector_graphics_in_pdf boundaryPage (2/5) = none) :=
  ⟨⟨rfl, rfl, (detect_boundary_contract blankPage (2/5)).1 rfl rfl⟩,
   ⟨by norm_num [text_area, imagePage, blankPage], by norm_num,
    by norm_num [imagePage, blankPage],
    (detect_boundary_contract imagePage (2/5)).2.1
      (by norm_num [text_area, imagePage, blankPage]) (by norm_num)
      (by norm_num [imagePage, blankPage])⟩,
   ⟨by norm_num [page_area, boundaryPage, blankPage],
    by norm_num [text_area, page_area, boundaryPage, blankPage],
    (detect_boundary_contract boundaryPage (2/5)).2.2
      (by norm_num [page_area, boundaryPage, blankPage])
      (by norm_num [text_area, page_area, boundaryPage, blankPage])⟩⟩

/-- C6: the spec requires that a zero page area never raise a division
fault.  The classifier of src/utils/pdf_processing.py guards the
division (`text_area / page_area if page_area > 0 else 0`), so its
instrumented form never returns a division error; but the older
iteration in src/pdf_processing.py divides unguarded, and on the
0-by-0 page `zeroAreaPage` with an embedded image and non-blank text
it raises `ZeroDivisionError`. -/
theorem detect_division_guard :
    OldPipeline.detect_ocr_images_and_vector_graphics_in_pdf zeroAreaPage 0 (18/100)
      = Except.error "ZeroDivisionError"
    ∧ ∀ (page : PageObs) (thr : ℚ), (detect_checked page thr).isOk = true := by
  constructor
  · have hc : (zeroAreaPage.images ≠ 0 ∨ zeroAreaPage.drawings = true) ∧
        pyStrip zeroAreaPage.text ≠ "" := ⟨Or.inl (by decide), by decide⟩
    unfold OldPipeline.detect_ocr_images_and_vector_graphics_in_pdf
    rw [if_pos hc]
    unfold checkedDiv
    rw [if_pos (by norm_num [page_area, zeroAreaPage])]
    rfl
  · intro page thr
    unfold detect_checked
    by_cases h0 : page_area page > 0
    · rw [if_pos h0]
      unfold checkedDiv
      rw [if_neg (ne_of_gt h0)]
      simp only [Except.bind]
      split <;> rfl
    · rw [if_neg h0]
      simp only [Except.bind]
      split <;> rfl

/-- Helper: every branch of `pageStep` yields a record carrying the
1-based page number `i + 1`. -/
theorem pageStep_fst_page_number (env : PipelineEnv) (i : Nat) (prev : String) :
    ((pageStep env i prev).1).page_number = i + 1 := by
  cases hl : env.load_page_text i with
  | none => simp [pageStep, error_page, hl]
  | some text =>
    cases hs : env.summarize_page (remove_stopwords_and_blanks text) prev (i + 1)
        env.system_prompt with
    | none => simp [pageStep, error_page, hl, hs]
    | some summary =>
      cases hi : imageStep env i with
      | none => simp [pageStep, error_page, hl, hs, hi]
      | some ia => simp [pageStep, error_page, hl, hs, hi]

/-- Helper: the `previous_summary` leaving a page iteration is the
summary that iteration produced if load and summarize completed, and
the incoming value otherwise. -/
theorem pageStep_snd (env : PipelineEnv) (i : Nat) (prev : String) :
    (pageStep env i prev).2 = (summarizeResult env i prev).getD prev := by
  cases hl : env.load_page_text i with
  | none => simp [pageStep, summarizeResult, hl]
  | some text =>
    cases hs : env.summarize_page (remove_stopwords_and_blanks text) prev (i + 1)
        env.system_prompt with
    | none => simp [pageStep, summarizeResult, hl, hs]
    | some summary =>
      cases hi : imageStep env i with
      | none => simp [pageStep, summarizeResult, hl, hs, hi]
      | some ia => simp [pageStep, summarizeResult, hl, hs, hi]

/-- Helper: if an exception reaches the per-page handler — the
load/summarize stage or the image stage raises — the appended record is
the error marker. -/
theorem pageStep_raises (env : PipelineEnv) (i : Nat) (prev : String)
    (h : summarizeResult env i prev = none ∨ imageStep env i = none) :
    (pageStep env i prev).1 = error_page i := by
  unfold summarizeResult at h
  cases hl : env.load_page_text i with
  | none => simp [pageStep, hl]
  | some text =>
    simp only [hl] at h
    cases hs : env.summarize_page (remove_stopwords_and_blanks text) prev (i + 1)
        env.system_prompt with
    | none => simp [pageStep, hl, hs]
    | some summary =>
      simp [hs] at h
      simp [pageStep, hl, hs, h]

/-- Helper: the batch loop over `range(i, i+n)` produces, at offset
`j`, the record of page `i + j` computed from the chained previous
summary. -/
theorem runPages_range' (env : PipelineEnv) :
    ∀ (n i : Nat) (prev : String),
      runPages env (List.range' i n) prev
        = (List.range n).map (fun j => (pageStep env (i + j) (chainPrev env i prev j)).1) := by
  intro n
  induction n with
  | zero => intro i prev; rfl
  | succ n ih =>
    intro i prev
    rw [List.range'_succ]
    show (pageStep env i prev).1
        :: runPages env (List.range' (i + 1) n) (pageStep env i prev).2 = _
    rw [ih (i + 1) (pageStep env i prev).2, List.range_succ_eq_map, List.map_cons,
      List.map_map]
    congr 1
    apply List.map_congr_left
    intro j hj
    show (pageStep env ((i + 1) + j) (chainPrev env (i + 1) (pageStep env i prev).2 j)).1
        = (pageStep env (i + (j + 1)) (chainPrev env i prev (j + 1))).1
    have h1 : (i + 1) + j = i + (j + 1) := by omega
    rw [h1]
    rfl

/-- Helper: `process_page_batch` on `range(s, s+n)` in canonical map
form. -/
theorem process_page_batch_eq (env : PipelineEnv) (s n : Nat) :
    process_page_batch env (List.range' s n)
      = (List.range n).map (fun j => (pageStep env (s + j) (chainPrev env s "" j)).1) :=
  runPages_range' env n s ""

/-- Helper: the page numbers of a processed batch are `s+1, ..., s+n`
in order. -/
theorem map_page_number_batch (env : PipelineEnv) (s n : Nat) :
    (process_page_batch env (List.range' s n)).map PageData.page_number
      = List.range' (s + 1) n := by
  rw [process_page_batch_eq, List.map_map, List.range'_eq_map_range]
  apply List.map_congr_left
  intro j hj
  show ((pageStep env (s + j) (chainPrev env s "" j)).1).page_number = (s + 1) + j
  rw [pageStep_fst_page_number]
  omega

/-- Helper: the previous-summary chain, peeled from its last step. -/
theorem chainPrev_succ_last (env : PipelineEnv) :
    ∀ (j s : Nat) (prev : String),
      chainPrev env s prev (j + 1) = (pageStep env (s + j) (chainPrev env s prev j)).2 := by
  intro j
  induction j with
  | zero => intro s prev; rfl
  | succ j ih =>
    intro s prev
    show chainPrev env (s + 1) (pageStep env s prev).2 (j + 1) = _
    rw [ih (s + 1) (pageStep env s prev).2]
    have h1 : (s + 1) + j = s + (j + 1) := by omega
    rw [h1]
    rfl

/-- Helper: concatenating the per-batch ranges (shifted by `off`)
reconstructs one contiguous range, as long as every batch start lies
below `N`. -/
theorem flatten_shifted_ranges (N off : Nat) :
    ∀ c, c ≤ (N + 4) / 5 →
      ((List.range c).map
          (fun k => List.range' (5 * k + off) (min (5 * k + 5) N - 5 * k))).flatten
        = List.range' off (min (5 * c) N) := by
  intro c
  induction c with
  | zero => intro _; simp
  | succ c ih =>
    intro hc
    have h5 : 5 * c < N := by omega
    rw [List.range_succ, List.map_append, List.flatten_append, ih (by omega)]
    simp only [List.map_cons, List.map_nil, List.flatten_cons, List.flatten_nil,
      List.append_nil]
    have hmin : min (5 * c) N = 5 * c := by omega
    rw [hmin]
    have hstart : 5 * c + off = off + 5 * c := by omega
    rw [hstart, List.range'_append_1]
    congr 1
    omega

/-- Helper: every batch is a contiguous run starting at a multiple of 5
below the page count. -/
theorem page_batches_mem (N : Nat) (b : List Nat) (hb : b ∈ page_batches N) :
    ∃ k, 5 * k < N ∧ b = List.range' (5 * k) (min (5 * k + 5) N - 5 * k) := by
  unfold page_batches at hb
  rw [List.map_map, List.mem_map] at hb
  obtain ⟨k, hk, rfl⟩ := hb
  rw [List.mem_range] at hk
  exact ⟨k, by omega, rfl⟩

/-- Helper: the batches partition the 0-based page indices. -/
theorem page_batches_flatten (N : Nat) : (page_batches N).flatten = List.range N := by
  unfold page_batches
  rw [List.map_map]
  have he : ((List.range ((N + 4) / 5)).map
        ((fun i => List.range' i (min (i + 5) N - i)) ∘ (fun k => 5 * k)))
      = (List.range ((N + 4) / 5)).map
        (fun k => List.range' (5 * k + 0) (min (5 * k + 5) N - 5 * k)) := by
    apply List.map_congr_left
    intro k _
    simp
  rw [he, flatten_shifted_ranges N 0 ((N + 4) / 5) le_rfl]
  have hmin : min (5 * ((N + 4) / 5)) N = N := by omega
  rw [hmin, List.range_eq_range']

/-- Helper: the batch results in normal form, one entry per batch
start. -/
theorem batch_results_eq (env : PipelineEnv) (N : Nat) :
    batch_results env N = (List.range ((N + 4) / 5)).map
      (fun k => process_page_batch env (List.range' (5 * k) (min (5 * k + 5) N - 5 * k))) := by
  unfold batch_results page_batches
  rw [List.map_map, List.map_map]
  rfl

/-- Helper: the page numbers of all batch results, concatenated in
batch order, are `1, ..., N`. -/
theorem map_page_number_flatten (env : PipelineEnv) (N : Nat) :
    ((batch_results env N).flatten).map PageData.page_number = List.range' 1 N := by
  rw [batch_results_eq, List.map_flatten, List.map_map]
  have he : ((List.range ((N + 4) / 5)).map
        (List.map PageData.page_number ∘ (fun k =>
          process_page_batch env (List.range' (5 * k) (min (5 * k + 5) N - 5 * k)))))
      = (List.range ((N + 4) / 5)).map
        (fun k => List.range' (5 * k + 1) (min (5 * k + 5) N - 5 * k)) := by
    apply List.map_congr_left
    intro k _
    show (process_page_batch env (List.range' (5 * k) (min (5 * k + 5) N - 5 * k))).map
        PageData.page_number = _
    rw [map_page_number_batch]
  rw [he, flatten_shifted_ranges N 1 ((N + 4) / 5) le_rfl]
  have hmin : min (5 * ((N + 4) / 5)) N = N := by omega
  rw [hmin]

/-- Helper: every record in any batch result equals the canonical
record of its page index. -/
theorem mem_flatten_canon (env : PipelineEnv) (N : Nat) (r : PageData)
    (hr : r ∈ (batch_results env N).flatten) :
    r = canonPage env (r.page_number - 1) := by
  rw [List.mem_flatten] at hr
  obtain ⟨l, hl, hrl⟩ := hr
  unfold batch_results at hl
  rw [List.mem_map] at hl
  obtain ⟨b, hb, rfl⟩ := hl
  obtain ⟨k, hkN, rfl⟩ := page_batches_mem N b hb
  rw [process_page_batch_eq, List.mem_map] at hrl
  obtain ⟨j, hj, rfl⟩ := hrl
  rw [List.mem_range] at hj
  have hj5 : j < 5 := by omega
  rw [pageStep_fst_page_number]
  unfold canonPage
  have e1 : 5 * k + j + 1 - 1 = 5 * k + j := by omega
  have e2 : 5 * ((5 * k + j) / 5) = 5 * k := by omega
  have e3 : (5 * k + j) % 5 = j := by omega
  rw [e1, e2, e3]

/-- Helper: a list whose image under `f` is `ks`, and whose elements
are recovered from their `f`-image by `g`, is `ks.map g`. -/
theorem list_eq_map_of_map_eq {α β : Type} (g : β → α) (f : α → β) :
    ∀ (l : List α) (ks : List β), l.map f = ks → (∀ r ∈ l, g (f r) = r) →
      l = ks.map g := by
  intro l
  induction l with
  | nil =>
    intro ks h _
    rw [← h]
    rfl
  | cons a l ih =>
    intro ks h hg
    cases ks with
    | nil => simp at h
    | cons k ks =>
      rw [List.map_cons, List.cons.injEq] at h
      rw [List.map_cons, ← h.1, ← ih ks h.2 (fun r hr => hg r (List.mem_cons_of_mem a hr))]
      rw [hg a (List.mem_cons_self a l)]

/-- Helper (the central canonical-form result): whatever order the
batch futures complete in, the sorted page list of
`process_pdf_pages` is the canonical record sequence for pages
`1, ..., N`. -/
theorem sort_pages_canonical (env : PipelineEnv) (N : Nat)
    (completed : List (List PageData))
    (hp : completed.Perm (batch_results env N)) :
    sort_pages completed.flatten
      = (List.range' 1 N).map (fun p => canonPage env (p - 1)) := by
  have hLperm : completed.flatten.Perm ((batch_results env N).flatten) := hp.flatten
  have hS : (sort_pages completed.flatten).Perm completed.flatten :=
    List.perm_insertionSort page_le completed.flatten
  have hSsorted : List.Sorted page_le (sort_pages completed.flatten) :=
    List.sorted_insertionSort page_le completed.flatten
  have hmap_sorted :
      List.Sorted (· ≤ ·) ((sort_pages completed.flatten).map PageData.page_number) :=
    List.pairwise_map.mpr hSsorted
  have hmap_perm :
      ((sort_pages completed.flatten).map PageData.page_number).Perm (List.range' 1 N) := by
    have h1 := (hS.trans hLperm).map PageData.page_number
    rw [map_page_number_flatten env N] at h1
    exact h1
  have hrange_sorted : List.Sorted (· ≤ ·) (List.range' 1 N) :=
    (List.pairwise_lt_range' 1 N).imp Nat.le_of_lt
  have hkeys : (sort_pages completed.flatten).map PageData.page_number = List.range' 1 N :=
    List.eq_of_perm_of_sorted hmap_perm hmap_sorted hrange_sorted
  apply list_eq_map_of_map_eq (fun p => canonPage env (p - 1)) PageData.page_number
      (sort_pages completed.flatten) (List.range' 1 N) hkeys
  intro r hr
  have hmem : r ∈ (batch_results env N).flatten :=
    hLperm.mem_iff.mp (hS.mem_iff.mp hr)
  exact (mem_flatten_canon env N r hmem).symm

/-- C1: for a document of `N` pages, whatever order the concurrent
batches complete in (`completed` is any permutation of the batch
results) and whatever per-page failures occur (the oracles in `env`
are arbitrary), `process_pdf_pages` returns exactly `N` page records
whose page numbers are exactly `1, 2, ..., N` in ascending order. -/
theorem process_pdf_pages_page_coverage (env : PipelineEnv) (N : Nat)
    (file_name : String) (spd : PyVal) (completed : List (List PageData))
    (hp : completed.Perm (batch_results env N)) :
    ((process_pdf_pages file_name spd completed).1.pages).map PageData.page_number
        = List.range' 1 N
    ∧ ((process_pdf_pages file_name spd completed).1.pages).length = N := by
  have hc : (process_pdf_pages file_name spd completed).1.pages
      = (List.range' 1 N).map (fun p => canonPage env (p - 1)) :=
    sort_pages_canonical env N completed hp
  constructor
  · rw [hc, List.map_map]
    have he : ∀ p ∈ List.range' 1 N,
        (PageData.page_number ∘ fun p => canonPage env (p - 1)) p = id p := by
      intro p hp'
      rw [List.mem_range'_1] at hp'
      show (canonPage env (p - 1)).page_number = p
      unfold canonPage
      rw [pageStep_fst_page_number]
      omega
    rw [List.map_congr_left he, List.map_id]
  · rw [hc]
    simp

/-- C1 witness: `process_pdf_pages_page_coverage` at the concrete
environment `wEnv`, a 7-page document (batches of 5 and 2), with the
batch results completing in reversed order. -/
theorem process_pdf_pages_page_coverage_witness :
    (((process_pdf_pages "doc.pdf" (PyVal.str "e")
        ((batch_results wEnv 7).reverse)).1.pages).map PageData.page_number
      = List.range' 1 7)
    ∧ ((process_pdf_pages "doc.pdf" (PyVal.str "e")
        ((batch_results wEnv 7).reverse)).1.pages).length = 7 :=
  process_pdf_pages_page_coverage wEnv 7 "doc.pdf" (PyVal.str "e")
    ((batch_results wEnv 7).reverse) (batch_results wEnv 7).reverse_perm

/-- C2: `process_pdf_pages` partitions the page indices into contiguous
batches of 5 (the last possibly shorter); within a batch the pages are
processed in strictly increasing order (the records come out mapped
over `0, ..., n-1` and their page numbers are `s+1, ..., s+n` in
order); the previous-summary chain starts empty at the head of every
batch; and whenever the summarization of page `s+j` produces a summary
`σ`, the next page of the batch receives exactly `σ` as its
previous-summary. -/
theorem batch_protocol (env : PipelineEnv) (N : Nat) :
    ((page_batches N).flatten = List.range N)
    ∧ (∀ b ∈ page_batches N, ∃ k, 5 * k < N
        ∧ b = List.range' (5 * k) (min 5 (N - 5 * k))
        ∧ b.length ≤ 5 ∧ (5 * k + 5 ≤ N → b.length = 5))
    ∧ (∀ s n, process_page_batch env (List.range' s n)
        = (List.range n).map (fun j => (pageStep env (s + j) (chainPrev env s "" j)).1))
    ∧ (∀ s n, (process_page_batch env (List.range' s n)).map PageData.page_number
        = List.range' (s + 1) n)
    ∧ (∀ s, chainPrev env s "" 0 = "")
    ∧ (∀ s j σ, summarizeResult env (s + j) (chainPrev env s "" j) = some σ →
        chainPrev env s "" (j + 1) = σ) := by
  refine ⟨page_batches_flatten N, ?_,
    fun s n => process_page_batch_eq env s n,
    fun s n => map_page_number_batch env s n,
    fun s => rfl, ?_⟩
  · intro b hb
    obtain ⟨k, hk, rfl⟩ := page_batches_mem N b hb
    have hm : min (5 * k + 5) N - 5 * k = min 5 (N - 5 * k) := by omega
    refine ⟨k, hk, by rw [hm], ?_, ?_⟩
    · rw [List.length_range']
      omega
    · intro h5
      rw [List.length_range']
      omega
  · intro s j σ hσ
    rw [chainPrev_succ_last env j s "", pageStep_snd, hσ]
    rfl

/-- C2 witness: `batch_protocol` at `wEnv`, instantiating the chain
conjunct at the first page of the first batch, whose summary is
`"#1"`. -/
theorem batch_protocol_witness :
    summarizeResult wEnv (0 + 0) (chainPrev wEnv 0 "" 0) = some "#1"
    ∧ chainPrev wEnv 0 "" (0 + 1) = "#1" :=
  ⟨by decide, (batch_protocol wEnv 7).2.2.2.2.2 0 0 "#1" (by decide)⟩

/-- C7: if any exception is raised while processing page `s+j` of a
batch (the load/summarize stage or the image stage raises), the batch
loop catches it and places at position `j` the error-marker record for
that exact page — correct 1-based page number, empty full text, the
sentinel summary, empty image analysis — and still produces one record
for every page of the batch. -/
theorem page_failure_containment (env : PipelineEnv) (s n j : Nat) (hj : j < n)
    (hfail : summarizeResult env (s + j) (chainPrev env s "" j) = none
      ∨ imageStep env (s + j) = none) :
    (process_page_batch env (List.range' s n))[j]? = some (error_page (s + j))
    ∧ (process_page_batch env (List.range' s n)).length = n := by
  rw [process_page_batch_eq]
  constructor
  · rw [List.getElem?_map, List.getElem?_range hj]
    show some ((pageStep env (s + j) (chainPrev env s "" j)).1) = _
    rw [pageStep_raises env (s + j) (chainPrev env s "" j) hfail]
  · simp

/-- C7 witness: `page_failure_containment` at `wEnv`, where loading
page 3 raises: the first batch of a 7-page document still has 5
records and carries the error marker at position 3. -/
theorem page_failure_containment_witness :
    (summarizeResult wEnv (0 + 3) (chainPrev wEnv 0 "" 3) = none
      ∨ imageStep wEnv (0 + 3) = none)
    ∧ (process_page_batch wEnv (List.range' 0 5))[3]? = some (error_page (0 + 3))
    ∧ (process_page_batch wEnv (List.range' 0 5)).length = 5 :=
  ⟨Or.inl (by decide),
   page_failure_containment wEnv 0 5 3 (by decide) (Or.inl (by decide))⟩

/-- C3: the spec says a successfully derived persona is used to build
the system prompt injected into every summarization call.  The code
checks `isinstance(system_prompt_data, dict)`, but on success
`generate_system_prompt` returns a pydantic model instance — never a
dict — so the persona branch is dead and the fallback
`"Default system prompt. ..."` is used for every document whose
persona parses: the code contradicts the spec (and its own comments
and error log), so this is recorded as a code bug.  This theorem
evaluates the code on the failing input: for every validly parsed
persona `p`, the system prompt returned by `process_pdf_pages` is the
fixed default prompt, not one built from the persona fields. -/
theorem system_prompt_defaults_on_parsed_persona (p : SystemPromptOutput)
    (file_name : String) (completed : List (List PageData)) :
    (process_pdf_pages file_name (generate_system_prompt (GenOutcome.parsed p))
        completed).2 = default_system_prompt := rfl

/-- C8: the claim says `ask_question` raises on any non-2xx status.
`raise_for_status` only raises for 4xx/5xx: a 300 response with a
well-formed body is returned as a normal answer, not raised. -/
theorem ask_question_redirect_status_counterexample :
    ask_question [] "" []
        (fun _ => PostResult.response { status := 300, choices := some [some "x"] })
      = Except.ok "x" := rfl

/-- C8 (amended): `ask_question` raises an exception to its caller
whenever the backend call fails — a request exception
(network error/timeout) or a 4xx/5xx status (`raise_for_status`
semantics) — and never converts such a failure into a sentinel return
value. -/
theorem ask_question_raises_on_backend_failure
    (documents : List (String × DocumentData)) (question : String)
    (chat_history : List ChatTurn) (post : String → PostResult)
    (h : post (prompt_message documents question chat_history) = PostResult.exn
      ∨ ∃ r, post (prompt_message documents question chat_history) = PostResult.response r
          ∧ 400 ≤ r.status ∧ r.status < 600) :
    ask_question documents question chat_history post
      = Except.error (AskError.raised
          "Unable to answer the question due to network issues or API error.") := by
  unfold ask_question
  rcases h with h | ⟨r, h, h4, h6⟩
  · rw [h]
  · rw [h]
    have hrs : raise_for_status r.status = true := by
      unfold raise_for_status
      exact decide_eq_true ⟨h4, h6⟩
    simp [hrs]

/-- C8 witness: `ask_question_raises_on_backend_failure` at a backend
that raises a request exception. -/
theorem ask_question_raises_witness :
    ask_question [] "q" [] (fun _ => PostResult.exn)
      = Except.error (AskError.raised
          "Unable to answer the question due to network issues or API error.") :=
  ask_question_raises_on_backend_failure [] "q" [] (fun _ => PostResult.exn) (Or.inl rfl)

/-- C9: with a fixed documents mapping, chat history and question, the
prompt payload `ask_question` assembles is a pure function of that
state: in particular it is byte-identical across runs whose page
processing completed its concurrent batches in different orders. -/
theorem ask_question_payload_concurrency_independent (env : PipelineEnv) (N : Nat)
    (file_name : String) (spd : PyVal) (question : String)
    (chat_history : List ChatTurn) (c1 c2 : List (List PageData))
    (h1 : c1.Perm (batch_results env N)) (h2 : c2.Perm (batch_results env N)) :
    prompt_message [(file_name, (process_pdf_pages file_name spd c1).1)]
        question chat_history
      = prompt_message [(file_name, (process_pdf_pages file_name spd c2).1)]
        question chat_history := by
  have hd : (process_pdf_pages file_name spd c1).1 = (process_pdf_pages file_name spd c2).1 := by
    unfold process_pdf_pages
    dsimp only
    rw [sort_pages_canonical env N c1 h1, sort_pages_canonical env N c2 h2]
  rw [hd]

/-- C9 witness: `ask_question_payload_concurrency_independent` at
`wEnv` with 7 pages: identity completion order versus reversed
completion order. -/
theorem ask_question_payload_witness :
    prompt_message
        [("doc.pdf", (process_pdf_pages "doc.pdf" (PyVal.str "e")
          (batch_results wEnv 7)).1)] "q" []
      = prompt_message
        [("doc.pdf", (process_pdf_pages "doc.pdf" (PyVal.str "e")
          ((batch_results wEnv 7).reverse)).1)] "q" [] :=
  ask_question_payload_concurrency_independent wEnv 7 "doc.pdf" (PyVal.str "e") "q" []
    (batch_results wEnv 7) ((batch_results wEnv 7).reverse)
    (List.Perm.refl (batch_results wEnv 7)) (batch_results wEnv 7).reverse_perm

/-- C10: the claim says a page that raises leaves `previous_summary`
unchanged.  False: `previous_summary = summary` executes *before* the
image stage, so a page whose `get_image_explanation` raises yields the
error-marker record *and* updates `previous_summary` to its own
summary.  In `lateFailEnv`, page 1 fails late: its record is the error
marker, yet the chain value changes from `"<1>"` (entering page 1) to
`"<1><2>"` (entering page 2) — page 2 is conditioned on the failed
page's summary, not on that of the last non-excepting page. -/
theorem late_failure_updates_previous_summary_counterexample :
    (pageStep lateFailEnv 1 (chainPrev lateFailEnv 0 "" 1)).1 = error_page 1
    ∧ chainPrev lateFailEnv 0 "" 1 = "<1>"
    ∧ chainPrev lateFailEnv 0 "" 2 = "<1><2>" := by
  have hdet : detect_ocr_images_and_vector_graphics_in_pdf (lateFailEnv.page_obs 1)
      lateFailEnv.ocr_text_threshold = some "img" := by
    show detect_ocr_images_and_vector_graphics_in_pdf zeroAreaPage (2/5) = some "img"
    unfold detect_ocr_images_and_vector_graphics_in_pdf
    rw [if_pos ⟨Or.inl (by decide),
      by norm_num [text_coverage, page_area, zeroAreaPage]⟩]
    rfl
  have himg : imageStep lateFailEnv 1 = none := by
    unfold imageStep
    rw [hdet]
    rfl
  have hch1 : chainPrev lateFailEnv 0 "" 1 = "<1>" := by
    rw [chainPrev_succ_last lateFailEnv 0 0 "", pageStep_snd]
    decide
  have hch2 : chainPrev lateFailEnv 0 "" 2 = "<1><2>" := by
    rw [chainPrev_succ_last lateFailEnv 1 0 "", pageStep_snd, hch1]
    decide
  refine ⟨?_, hch1, hch2⟩
  rw [hch1]
  exact pageStep_raises lateFailEnv 1 "<1>" (Or.inr himg)

/-- C10 (amended): `previous_summary` is left unchanged exactly when
the exception strikes before the summary assignment (load, text
extraction or summarization); when the exception strikes after it
(image detection/explanation), `previous_summary` holds the failed
page's computed summary; and in every case each previous-summary value
entering a page is either the empty string or a value returned by the
summarization function — never the error-marker sentinel written into
the failed record. -/
theorem previous_summary_discipline (env : PipelineEnv) :
    (∀ i prev, summarizeResult env i prev = none → (pageStep env i prev).2 = prev)
    ∧ (∀ i prev σ, summarizeResult env i prev = some σ → (pageStep env i prev).2 = σ)
    ∧ (∀ s j, chainPrev env s "" j = ""
        ∨ ∃ i p, summarizeResult env i p = some (chainPrev env s "" j)) := by
  refine ⟨fun i prev h => by rw [pageStep_snd, h]; rfl,
    fun i prev σ h => by rw [pageStep_snd, h]; rfl, ?_⟩
  intro s j
  induction j with
  | zero => exact Or.inl rfl
  | succ j ih =>
    rw [chainPrev_succ_last env j s "", pageStep_snd]
    cases hσ : summarizeResult env (s + j) (chainPrev env s "" j) with
    | none =>
      simp only [Option.getD_none]
      exact ih
    | some σ =>
      right
      refine ⟨s + j, chainPrev env s "" j, ?_⟩
      rw [hσ]
      rfl

/-- C10 witness: `previous_summary_discipline` at `wEnv`, where
loading page 3 raises: its iteration leaves the previous summary (the
empty string here) unchanged. -/
theorem previous_summary_discipline_witness :
    summarizeResult wEnv 3 "" = none ∧ (pageStep wEnv 3 "").2 = "" :=
  ⟨by decide, (previous_summary_discipline wEnv).1 3 "" (by decide)⟩
